import Mathlib

/-!
Shallow embedding of `demucs/separate.py`: artifact acquisition with integrity
verification (`download_file`, `verify_file`, the model-resolution logic at the
top of `main`) and the per-track separation pipeline (discretization,
normalization, inference bracketing, quantization, stem writing).

Conventions of the embedding:
* File contents are `List Nat` (byte sequences); the filesystem state for a
  single path is `Option (List Nat)` (`none` = the file does not exist).
* The SHA-256 routine comes from Python's `hashlib`, external to the
  repository; it is a parameter `hexdigest : List Nat → String` of the
  verifier, keeping only the comparison and reporting logic from the source.
* Audio samples are `ℚ`.  The reference `std` is the square root of the
  (Bessel-corrected, as in `torch.std`) variance; since the square root
  leaves `ℚ`, functions that the source feeds the `std` take it as a scalar
  parameter `σ`, and degeneracy is expressed through the computable variance
  (`σ = 0` exactly when the variance is `0`).
* For the division-by-zero analysis the value domain `FVal` marks non-finite
  results (IEEE `inf`/`NaN`) explicitly: dividing a finite value by zero is
  non-finite, and non-finite operands propagate.
* Observable effects (printing a diagnostic, `sys.exit`, deleting a file,
  touching the network) are recorded in result structures.
-/

namespace Demucs

/-! ### ChecksumVerifier: `verify_file` (separate.py lines 62-79) -/

/-- Observable outcome of one `verify_file` call: whether it returned silently,
whether it deleted the target, what diagnostic it printed (path, expected
digest, actual digest), and the `sys.exit` code if any. -/
structure VerifyOutcome where
  silent : Bool
  deleted : Bool
  reported : Option (String × String × String)
  exitCode : Option Nat
deriving DecidableEq, Repr

/-- `verify_file(target, sha256)`: hash the file contents, compare the hex
digest to `sha256` by string equality; on mismatch print the path with both
digests and `sys.exit(1)`, never deleting the file; on match do nothing.
The streaming hash of `hashlib` is abstracted as `hexdigest`. -/
def verify_file (hexdigest : List Nat → String) (target : String)
    (contents : List Nat) (sha256 : String) : VerifyOutcome :=
  let signature := hexdigest contents
  if signature ≠ sha256 then
    { silent := false, deleted := false,
      reported := some (target, sha256, signature), exitCode := some 1 }
  else
    { silent := true, deleted := false, reported := none, exitCode := none }

/-! ### ArtifactFetcher: `download_file` (separate.py lines 35-59) -/

/-- Where the inner `_download` fails, if it does: before the output file is
opened (e.g. `requests.get` raising), or after `k` chunks have been written
(mid-stream network or disk error, interruption), or not at all. -/
inductive FailPoint where
  | beforeOpen
  | afterChunks (k : Nat)
  | noFail
deriving DecidableEq, Repr

/-- The inner `_download`: opening `target` for writing truncates/creates it,
then the response chunks are appended one by one.  Returns the filesystem
state of `target` on success (`Except.ok`) or at the failure point
(`Except.error`). -/
def runDownload (pre : Option (List Nat)) (chunks : List (List Nat))
    (fp : FailPoint) : Except (Option (List Nat)) (Option (List Nat)) :=
  match fp with
  | .beforeOpen => .error pre
  | .afterChunks k => .error (some (chunks.take k).flatten)
  | .noFail => .ok (some chunks.flatten)

/-- `download_file(url, target)`: run `_download`; on any exception, unlink
`target` if it exists, then re-raise.  The result carries the final
filesystem state of `target` on the success and on the error path. -/
def download_file (pre : Option (List Nat)) (chunks : List (List Nat))
    (fp : FailPoint) : Except (Option (List Nat)) (Option (List Nat)) :=
  match runDownload pre chunks fp with
  | .ok fs => .ok fs
  | .error fs => .error (if fs.isSome then none else fs)

/-! ### ModelResolver: catalog and resolution logic (separate.py lines 21-32, 137-158) -/

/-- The `PRETRAINED_MODELS` table: canonical filename → expected sha256. -/
def PRETRAINED_MODELS : List (String × String) :=
  [("demucs.th", "f6c4148ba0dc92242d82d7b3f2af55c77bd7cb4ff1a0a3028a523986f36a3cfd"),
   ("demucs.th.gz", "6030f57f77560f57aaaff14c1bfcc808307224a7b2df6b1b87aaacf92f5c1884"),
   ("demucs_extra.th", "3331bcc5d09ba1d791c3cf851970242b0bb229ce81dbada557b6d39e8c6a6a87"),
   ("demucs_extra.th.gz", "3bd3054bdfa5c08a6ca5919b8f82f8e588cadf6e9e474fcd8b037de5f789a4a7"),
   ("light.th", "79d1ee3c1541c729c552327756954340a1a46a11ce0009dea77dc583e4b6269c"),
   ("light.th.gz", "98d8296d155ce117345daa5f70597ec8c9bd1ff44bd4ed403aaf5d8e805ae247"),
   ("light_extra.th", "9e9b4af564229c80cc73c95d02d2058235bb054c6874b3cba4d5b26943a5ddcb"),
   ("light_extra.th.gz", "7f3a163cba2332fe75178b5be81ddf26695fe5a4565f33c05e693b477f1c697d"),
   ("tasnet.th", "be56693f6a5c4854b124f95bb9dd043f3167614898493738ab52e25648bec8a2"),
   ("tasnet_extra.th", "0ccbece3acd98785a367211c9c35b1eadae8d148b0d37fe5a5494d6d335269b5")]

/-- `name = args.name + ".th"`, plus `".gz"` when `--quantized`. -/
def canonicalName (nameArg : String) (quantized : Bool) : String :=
  if quantized then nameArg ++ ".th.gz" else nameArg ++ ".th"

/-- How resolution ended: `sys.exit(1)` after "No pretrained model …",
`sys.exit(1)` after "Could not find model …, use --dl", or a usable local
path (recording whether it was just downloaded). -/
inductive ResolveOutcome where
  | unknownModel
  | modelMissing
  | resolved (downloaded : Bool)
deriving DecidableEq, Repr

/-- Observable result of the resolution block of `main`: its outcome, whether
the network was touched, whether `verify_file` was invoked on the resolved
path, and the `sys.exit` code if any. -/
structure ResolveResult where
  outcome : ResolveOutcome
  networkAccessed : Bool
  verified : Bool
  exitCode : Option Nat
deriving DecidableEq, Repr

/-- separate.py lines 137-158: compute the canonical filename, look its digest
up in `PRETRAINED_MODELS`; if the local file is missing, exit on an unknown
name, exit when `--dl` was not passed, otherwise download; finally run
`verify_file` whenever a catalog digest exists.  `localExists` abstracts
`model_path.is_file()`. -/
def resolveModel (nameArg : String) (quantized : Bool) (localExists : Bool)
    (dl : Bool) : ResolveResult :=
  let name := canonicalName nameArg quantized
  let sha256 := PRETRAINED_MODELS.lookup name
  if !localExists then
    if sha256.isNone then
      { outcome := .unknownModel, networkAccessed := false,
        verified := false, exitCode := some 1 }
    else if !dl then
      { outcome := .modelMissing, networkAccessed := false,
        verified := false, exitCode := some 1 }
    else
      { outcome := .resolved true, networkAccessed := true,
        verified := sha256.isSome, exitCode := none }
  else
    { outcome := .resolved false, networkAccessed := false,
      verified := sha256.isSome, exitCode := none }

/-! ### SeparationPipeline: per-track numerics (separate.py lines 160-186)

A waveform is a list of channels, each a list of samples (`torch` shape
`[channels, samples]`); a separation result is a list of stems, each a
waveform. -/

/-- Round half to even, as `torch.round` does: the nearest integer, ties going
to the even neighbour. -/
def rne (q : ℚ) : ℤ :=
  let n := ⌊q⌋
  let r := q - n
  if r < 1 / 2 then n
  else if 1 / 2 < r then n + 1
  else if n % 2 = 0 then n else n + 1

/-- One sample of `wav = (wav * 2**15).round() / 2**15`. -/
def discretizeSample (x : ℚ) : ℚ := (rne (x * 2 ^ 15) : ℚ) / 2 ^ 15

/-- The discretization pre-pass applied to the whole waveform. -/
def discretize (wav : List (List ℚ)) : List (List ℚ) :=
  wav.map fun ch => ch.map discretizeSample

/-- `wav.mean(0)`: per-sample mean across channels (mono reference). -/
def channelMean (wav : List (List ℚ)) : List ℚ :=
  (List.range (wav.headD []).length).map fun i =>
    (wav.map fun ch => ch.getD i 0).sum / (wav.length : ℚ)

/-- `t.mean()` of a 1-D tensor. -/
def meanQ (l : List ℚ) : ℚ := l.sum / (l.length : ℚ)

/-- The square of `t.std()` of a 1-D tensor: Bessel-corrected variance
(`torch.std` divides by `n - 1`). -/
def varQ (l : List ℚ) : ℚ :=
  (l.map fun x => (x - meanQ l) ^ 2).sum / ((l.length : ℚ) - 1)

/-- The normalization statistics a track yields.  The source keeps
`ref.mean()` and `ref.std()`; the embedding records the mean and the variance
(`std ^ 2`), since the square root leaves `ℚ`.  `std = 0` iff `variance = 0`. -/
structure NormalizationStats where
  mean : ℚ
  variance : ℚ
deriving DecidableEq, Repr

/-- Lines 174-176: discretize, take the channel mean as reference, then its
mean and (squared) standard deviation. -/
def trackStats (wav : List (List ℚ)) : NormalizationStats :=
  let w := discretize wav
  let ref := channelMean w
  { mean := meanQ ref, variance := varQ ref }

/-- Line 176, `wav = (wav - ref.mean()) / ref.std()`, with the scalar standard
deviation `σ` passed in. -/
def normalizeWav (wav : List (List ℚ)) (μ σ : ℚ) : List (List ℚ) :=
  wav.map fun ch => ch.map fun x => (x - μ) / σ

/-- Line 178, `sources = sources * ref.std() + ref.mean()`: the same scalar
stats broadcast over every stem. -/
def denormalizeSources (sources : List (List (List ℚ))) (μ σ : ℚ) :
    List (List (List ℚ)) :=
  sources.map fun source => source.map fun ch => ch.map fun x => x * σ + μ

/-! IEEE-flavoured value domain for the division-by-zero analysis: a finite
rational, or a non-finite value (`inf`/`-inf`/`NaN` are not told apart). -/

/-- A floating-point sample value: finite, or non-finite. -/
inductive FVal where
  | fin (q : ℚ)
  | nonfinite
deriving DecidableEq, Repr

/-- Subtraction on `FVal`: finite on finite operands, otherwise non-finite. -/
def fvalSub : FVal → FVal → FVal
  | .fin x, .fin y => .fin (x - y)
  | _, _ => .nonfinite

/-- Division on `FVal`: a finite value divided by zero is non-finite
(IEEE `±inf`, or `NaN` for `0/0`); non-finite operands propagate. -/
def fvalDiv : FVal → FVal → FVal
  | .fin x, .fin y => if y = 0 then .nonfinite else .fin (x / y)
  | _, _ => .nonfinite

/-- Line 176 in the `FVal` domain: exactly `(wav - μ) / σ`, sample-wise, with
no guard on `σ` — the source has none. -/
def normalizeWavF (wav : List (List ℚ)) (μ σ : ℚ) : List (List FVal) :=
  wav.map fun ch => ch.map fun x => fvalDiv (fvalSub (.fin x) (.fin μ)) (.fin σ)

/-! ### Output quantization and stem writing (separate.py lines 180-186) -/

/-- `torch.clamp(v, -2**15, 2**15 - 1)`. -/
def clamp16 (q : ℚ) : ℚ := min (max q (-(2 ^ 15))) (2 ^ 15 - 1)

/-- Truncation toward zero, as the `.short()` cast of a float in range. -/
def truncQ (q : ℚ) : ℤ := if 0 ≤ q then ⌊q⌋ else ⌈q⌉

/-- Line 184, `(source * 2**15).clamp_(-2**15, 2**15 - 1).short()` on one
sample. -/
def quantize16 (x : ℚ) : ℤ := truncQ (clamp16 (x * 2 ^ 15))

/-- What lands in the wav file for one sample: a 16-bit integer, or the float
itself when `--float32` is set. -/
inductive WrittenSample where
  | i16 (v : ℤ)
  | f32 (v : ℚ)
deriving DecidableEq, Repr

/-- Lines 183-184: dispatch on the `--float32` flag. -/
def writeSample (float32 : Bool) (x : ℚ) : WrittenSample :=
  if float32 then .f32 x else .i16 (quantize16 x)

/-- `source_names = ["drums", "bass", "other", "vocals"]` (line 162). -/
def source_names : List String := ["drums", "bass", "other", "vocals"]

/-- Line 180, `track.name.split(".")[0]`: the part of the filename before the
first dot. -/
def trackFolderName (trackName : String) : String :=
  String.mk (trackName.toList.takeWhile fun c => c != '.')

/-- Path of one stem file, `out / args.name / track_folder / f"{name}.wav"`. -/
def stemPath (outDir modelName trackName stem : String) : String :=
  outDir ++ "/" ++ modelName ++ "/" ++ trackFolderName trackName ++ "/" ++
    stem ++ ".wav"

/-- The directories `main` creates: `out / args.name` with `parents=True`
(line 160) and the per-track folder (line 181). -/
def createdDirs (outDir modelName trackName : String) : List String :=
  [outDir, outDir ++ "/" ++ modelName,
   outDir ++ "/" ++ modelName ++ "/" ++ trackFolderName trackName]

/-- Lines 182-186: `zip(sources, source_names)` paired with the file each
iteration writes, in iteration order. -/
def writeStems (outDir modelName trackName : String)
    (sources : List (List (List ℚ))) : List (String × List (List ℚ)) :=
  (sources.zip source_names).map fun p =>
    (stemPath outDir modelName trackName p.2, p.1)

/-- Spec-worded alternative for the track folder, following
"track_basename_without_extension": the filename with its (final) extension
stripped.  Used only to compare against what the code computes. -/
def basenameWithoutExtension (s : String) : String :=
  if '.' ∈ s.toList then
    String.mk (((s.toList.reverse.dropWhile fun c => c != '.').drop 1).reverse)
  else s

/-! ### The per-track batch loop (separate.py lines 164-186) -/

/-- What the loop can observe about one track: whether the path exists, and
whether reading or inference on it raises. -/
structure Track where
  onDisk : Bool
  readRaises : Bool
deriving DecidableEq, Repr

/-- Per-track outcome: skipped with the "File … does not exist" diagnostic,
processed to completion, or aborted by an exception. -/
inductive TrackOutcome where
  | skippedMissing
  | processed
  | raised
deriving DecidableEq, Repr

/-- The `for track in args.tracks` loop: a missing path prints a diagnostic
and `continue`s; any exception while reading or running inference is not
caught anywhere in `main`, so it propagates and ends the loop.  Returns the
outcomes of the tracks actually reached, and whether the run aborted with an
uncaught exception. -/
def runBatch : List Track → List TrackOutcome × Bool
  | [] => ([], false)
  | t :: ts =>
    if !t.onDisk then
      ((runBatch ts).1.cons .skippedMissing, (runBatch ts).2)
    else if t.readRaises then
      ([.raised], true)
    else
      ((runBatch ts).1.cons .processed, (runBatch ts).2)

/-! ## Helper lemmas -/

/-- Rounding half to even fixes the integers. -/
theorem rne_intCast (n : ℤ) : rne (n : ℚ) = n := by
  rw [rne]
  norm_num

/-! ## Claims -/

/-- C1: `verify_file` returns silently, with no deletion, no diagnostic and no
exit, exactly when the hex digest of the contents equals the expected digest
under string equality; on mismatch it does not delete the file, reports the
path with the expected and the actual digest, and exits with status 1. -/
theorem verify_file_contract (hexdigest : List Nat → String) (target : String)
    (contents : List Nat) (sha256 : String) :
    (verify_file hexdigest target contents sha256 =
        { silent := true, deleted := false, reported := none, exitCode := none } ↔
      hexdigest contents = sha256) ∧
    (hexdigest contents ≠ sha256 →
      (verify_file hexdigest target contents sha256).deleted = false ∧
      (verify_file hexdigest target contents sha256).reported =
        some (target, sha256, hexdigest contents) ∧
      (verify_file hexdigest target contents sha256).exitCode = some 1) := by
  by_cases h : hexdigest contents = sha256 <;>
    simp [verify_file, h]

theorem verify_file_contract_witness :
    (fun _ : List Nat => "00aa") [0, 1] ≠ "00bb" ∧
    (verify_file (fun _ : List Nat => "00aa") "models/demucs.th" [0, 1] "00bb").exitCode
      = some 1 :=
  ⟨by decide,
    ((verify_file_contract (fun _ : List Nat => "00aa") "models/demucs.th" [0, 1]
      "00bb").2 (by decide)).2.2⟩

/-- C2: whenever `download_file` propagates an error — raised before the
output file is opened or after any number of chunks — the destination file
does not exist afterwards: the partial file is unlinked before re-raising. -/
theorem download_file_error_cleanup (pre : Option (List Nat))
    (chunks : List (List Nat)) (fp : FailPoint) (e : Option (List Nat))
    (h : download_file pre chunks fp = .error e) : e = none := by
  cases fp <;> cases pre <;> simp_all [download_file, runDownload]

theorem download_file_error_cleanup_witness :
    download_file (some [7]) [[1, 2], [3]] (FailPoint.afterChunks 1) =
      Except.error none ∧
    (none : Option (List Nat)) = none :=
  ⟨rfl, download_file_error_cleanup (some [7]) [[1, 2], [3]]
    (FailPoint.afterChunks 1) none rfl⟩

/-- C3: model resolution dispatch.  If the local file exists it is used with
no network access (even with `--dl`); else an unknown filename exits with
status 1 (UnknownModel); else without `--dl` it exits with status 1 and no
network access (ModelMissing); and whenever resolution yields a usable path
and a catalog digest exists, `verify_file` runs on it, downloaded or not. -/
theorem resolveModel_dispatch (nameArg : String)
    (quantized localExists dl : Bool) :
    (localExists = true →
      (resolveModel nameArg quantized localExists dl).outcome =
        ResolveOutcome.resolved false ∧
      (resolveModel nameArg quantized localExists dl).networkAccessed = false ∧
      (resolveModel nameArg quantized localExists dl).verified =
        (PRETRAINED_MODELS.lookup (canonicalName nameArg quantized)).isSome) ∧
    (localExists = false →
      PRETRAINED_MODELS.lookup (canonicalName nameArg quantized) = none →
      (resolveModel nameArg quantized localExists dl).outcome =
        ResolveOutcome.unknownModel ∧
      (resolveModel nameArg quantized localExists dl).exitCode = some 1 ∧
      (resolveModel nameArg quantized localExists dl).networkAccessed = false) ∧
    (localExists = false →
      (PRETRAINED_MODELS.lookup (canonicalName nameArg quantized)).isSome →
      dl = false →
      (resolveModel nameArg quantized localExists dl).outcome =
        ResolveOutcome.modelMissing ∧
      (resolveModel nameArg quantized localExists dl).exitCode = some 1 ∧
      (resolveModel nameArg quantized localExists dl).networkAccessed = false) ∧
    (∀ d : Bool,
      (resolveModel nameArg quantized localExists dl).outcome =
        ResolveOutcome.resolved d →
      (PRETRAINED_MODELS.lookup (canonicalName nameArg quantized)).isSome →
      (resolveModel nameArg quantized localExists dl).verified = true) := by
  cases localExists <;> cases dl <;>
    cases h : PRETRAINED_MODELS.lookup (canonicalName nameArg quantized) <;>
      simp [resolveModel, h]

theorem resolveModel_dispatch_witness :
    ((resolveModel "demucs" false false false).outcome =
        ResolveOutcome.modelMissing ∧
      (resolveModel "demucs" false false false).exitCode = some 1 ∧
      (resolveModel "demucs" false false false).networkAccessed = false) ∧
    ((resolveModel "foobar" false false true).outcome =
        ResolveOutcome.unknownModel ∧
      (resolveModel "foobar" false false true).exitCode = some 1 ∧
      (resolveModel "foobar" false false true).networkAccessed = false) ∧
    (resolveModel "demucs" true true false).verified = true :=
  ⟨(resolveModel_dispatch "demucs" false false false).2.2.1 rfl (by decide) rfl,
    ((resolveModel_dispatch "foobar" false false true).2.1 rfl (by decide)),
    (resolveModel_dispatch "demucs" true true false).2.2.2 false
      ((resolveModel_dispatch "demucs" true true false).1 rfl).1 (by decide)⟩

/-- C5 counterexample: with two tracks both present on disk, the first
raising during read/inference, the loop ends with the exception — the second
track is never processed, refuting "the batch continues to the next track"
for read/inference errors. -/
theorem batch_abort_counterexample :
    runBatch [{ onDisk := true, readRaises := true },
              { onDisk := true, readRaises := false }] =
      ([TrackOutcome.raised], true) ∧
    TrackOutcome.processed ∉
      (runBatch [{ onDisk := true, readRaises := true },
                 { onDisk := true, readRaises := false }]).1 := by
  constructor <;> decide

/-- C5 amended: a nonexistent track path is skipped with a diagnostic and the
batch continues, but an exception during read/inference is not caught
anywhere in `main`: it aborts the run and the remaining tracks are not
processed. -/
theorem batch_isolation_amended (t : Track) (ts : List Track) :
    (t.onDisk = false →
      runBatch (t :: ts) =
        (TrackOutcome.skippedMissing :: (runBatch ts).1, (runBatch ts).2)) ∧
    (t.onDisk = true → t.readRaises = true →
      runBatch (t :: ts) = ([TrackOutcome.raised], true)) ∧
    (t.onDisk = true → t.readRaises = false →
      runBatch (t :: ts) =
        (TrackOutcome.processed :: (runBatch ts).1, (runBatch ts).2)) := by
  cases h1 : t.onDisk <;> cases h2 : t.readRaises <;> simp [runBatch, h1, h2]

theorem batch_isolation_amended_witness :
    runBatch [{ onDisk := false, readRaises := false },
              { onDisk := true, readRaises := false }] =
      ([TrackOutcome.skippedMissing, TrackOutcome.processed], false) := by
  rw [(batch_isolation_amended { onDisk := false, readRaises := false }
    [{ onDisk := true, readRaises := false }]).1 rfl]
  decide

/-- C6: without `--float32`, a sample is scaled by `2 ^ 15`, clamped to
`[-32768, 32767]` and truncated to a 16-bit integer: `1.0` yields `32767`,
`-1.0` yields `-32768`, the out-of-range `2.0` yields `32767`, and every
output lies in the 16-bit range; with `--float32` the sample is written as a
float unchanged. -/
theorem quantize_contract :
    writeSample false 1 = WrittenSample.i16 32767 ∧
    writeSample false (-1) = WrittenSample.i16 (-32768) ∧
    writeSample false 2 = WrittenSample.i16 32767 ∧
    (∀ x : ℚ, -32768 ≤ quantize16 x ∧ quantize16 x ≤ 32767) ∧
    (∀ x : ℚ, writeSample true x = WrittenSample.f32 x) ∧
    (∀ x : ℚ, writeSample false x = WrittenSample.i16 (quantize16 x)) := by
  refine ⟨?_, ?_, ?_, ?_, fun x => rfl, fun x => rfl⟩
  · rw [writeSample, quantize16, clamp16, truncQ]
    norm_num
  · rw [writeSample, quantize16, clamp16, truncQ]
    norm_num
    rw [show ((-32768 : ℚ)) = ((-32768 : ℤ) : ℚ) by norm_num, Int.ceil_intCast]
  · rw [writeSample, quantize16, clamp16, truncQ]
    norm_num
  · intro x
    have hlo : (-32768 : ℚ) ≤ clamp16 (x * 2 ^ 15) := by
      rw [clamp16]
      refine le_min (le_trans ?_ (le_max_right _ _)) (by norm_num)
      norm_num
    have hhi : clamp16 (x * 2 ^ 15) ≤ 32767 := by
      rw [clamp16]
      exact le_trans (min_le_right _ _) (by norm_num)
    rw [quantize16, truncQ]
    by_cases h0 : 0 ≤ clamp16 (x * 2 ^ 15) <;> simp only [h0, if_true, if_false]
    · constructor
      · exact Int.le_floor.mpr (by exact_mod_cast hlo)
      · calc ⌊clamp16 (x * 2 ^ 15)⌋ ≤ ⌊(32767 : ℚ)⌋ := Int.floor_le_floor hhi
          _ = 32767 := by norm_num
    · constructor
      · calc (-32768 : ℤ) = ⌈(-32768 : ℚ)⌉ := by
              rw [show ((-32768 : ℚ)) = ((-32768 : ℤ) : ℚ) by norm_num,
                Int.ceil_intCast]
          _ ≤ ⌈clamp16 (x * 2 ^ 15)⌉ := Int.ceil_le_ceil hlo
      · have hc : ⌈clamp16 (x * 2 ^ 15)⌉ ≤ 0 :=
          Int.ceil_le.mpr (by push_cast; linarith [le_of_not_le h0])
        omega

/-- C10: the discretization pre-pass `x ↦ round(x * 2 ^ 15) / 2 ^ 15` is
idempotent. -/
theorem discretizeSample_idempotent (x : ℚ) :
    discretizeSample (discretizeSample x) = discretizeSample x := by
  rw [discretizeSample, discretizeSample, div_mul_cancel₀ _ (by norm_num),
    rne_intCast]

/-- C8: with nonzero standard deviation the denormalization is a two-sided
inverse of the normalization — applied with the one shared pair of stats to
an entire list of stems at once, recovering every stem exactly (stems are not
independently renormalized). -/
theorem denormalize_roundtrip (sources : List (List (List ℚ))) (μ σ : ℚ)
    (h : σ ≠ 0) :
    denormalizeSources (sources.map fun st => normalizeWav st μ σ) μ σ =
      sources := by
  have hpt : ∀ x : ℚ, (x - μ) / σ * σ + μ = x := by
    intro x
    field_simp
  simp [denormalizeSources, normalizeWav, List.map_map, Function.comp_def, hpt]

theorem denormalize_roundtrip_witness :
    denormalizeSources
      ([[[1, 2], [3, 4]], [[5], [6]]].map fun st => normalizeWav st 5 2) 5 2 =
      [[[1, 2], [3, 4]], [[5], [6]]] :=
  denormalize_roundtrip [[[1, 2], [3, 4]], [[5], [6]]] 5 2 (by norm_num)

theorem quantize_contract_witness :
    writeSample false 1 = WrittenSample.i16 32767 :=
  quantize_contract.1

/-- C4 counterexample: for the constant stereo track `[[1, 1], [1, 1]]` the
reference variance is `0` (so the standard deviation the code divides by is
`0`), and the unguarded normalization of line 176 turns every sample
non-finite — refuting "no non-finite sample values are produced by
normalization". -/
theorem degenerate_normalization_counterexample :
    (trackStats [[1, 1], [1, 1]]).variance = 0 ∧
    normalizeWavF (discretize [[1, 1], [1, 1]])
        (trackStats [[1, 1], [1, 1]]).mean 0 =
      [[FVal.nonfinite, FVal.nonfinite], [FVal.nonfinite, FVal.nonfinite]] := by
  have hds : discretizeSample 1 = 1 := by
    rw [discretizeSample, rne]
    norm_num
  have hw : discretize [[1, 1], [1, 1]] = [[1, 1], [1, 1]] := by
    simp only [discretize, List.map_cons, List.map_nil]
    rw [hds]
  constructor
  · simp only [trackStats]
    rw [hw]
    simp [channelMean, List.range_succ, varQ, meanQ]
  · rw [hw]
    simp [normalizeWavF, fvalSub, fvalDiv]

/-- C4 amended: the normalization step has no guard or fallback — it divides
by the reference standard deviation as is, so whenever that standard
deviation is zero (silent or constant input) every sample it produces is
non-finite. -/
theorem degenerate_normalization_amended (wav : List (List ℚ)) (μ : ℚ)
    (ch : List FVal) (hch : ch ∈ normalizeWavF wav μ 0) (x : FVal)
    (hx : x ∈ ch) : x = FVal.nonfinite := by
  simp only [normalizeWavF, List.mem_map] at hch
  obtain ⟨c, _, rfl⟩ := hch
  simp only [fvalSub, fvalDiv, if_pos rfl, List.mem_map] at hx
  obtain ⟨y, _, rfl⟩ := hx
  rfl

theorem degenerate_normalization_amended_witness :
    fvalDiv (fvalSub (FVal.fin 2) (FVal.fin 7)) (FVal.fin 0) =
      FVal.nonfinite :=
  degenerate_normalization_amended [[2]] 7
    [fvalDiv (fvalSub (FVal.fin 2) (FVal.fin 7)) (FVal.fin 0)]
    (by simp [normalizeWavF])
    (fvalDiv (fvalSub (FVal.fin 2) (FVal.fin 7)) (FVal.fin 0)) (by simp)

/-- C9: the normalization statistics are those of the channel mean of the
discretized waveform — the rounding pre-pass happens before the statistics
are taken; and they genuinely differ from the raw-sample statistics, shown on
a concrete track whose sample `3/131072` moves under discretization. -/
theorem stats_after_discretization :
    (∀ wav : List (List ℚ),
      trackStats wav =
        { mean := meanQ (channelMean (discretize wav)),
          variance := varQ (channelMean (discretize wav)) }) ∧
    trackStats [[3/131072, 0], [3/131072, 0]] ≠
      { mean := meanQ (channelMean [[3/131072, 0], [3/131072, 0]]),
        variance := varQ (channelMean [[3/131072, 0], [3/131072, 0]]) } := by
  have hds : discretizeSample (3/131072) = 1/32768 := by
    rw [discretizeSample, rne]
    norm_num
  have h0 : discretizeSample 0 = 0 := by
    rw [discretizeSample, rne]
    norm_num
  refine ⟨fun wav => rfl, fun h => ?_⟩
  have hm := congrArg NormalizationStats.mean h
  simp only [trackStats] at hm
  rw [show discretize [[3/131072, 0], [3/131072, 0]] =
      [[1/32768, 0], [1/32768, 0]] by
    simp only [discretize, List.map_cons, List.map_nil]
    rw [hds, h0]] at hm
  simp [channelMean, List.range_succ, meanQ] at hm
  norm_num at hm

theorem stats_after_discretization_witness :
    trackStats [[1, 1], [2, 2]] =
      { mean := meanQ (channelMean (discretize [[1, 1], [2, 2]])),
        variance := varQ (channelMean (discretize [[1, 1], [2, 2]])) } :=
  stats_after_discretization.1 [[1, 1], [2, 2]]

/-- C7 counterexample: for the track filename `"song.v2.mp3"` the code files
stems under the part before the *first* dot (`"song"`), not under the
basename without its extension (`"song.v2"`) — the path in the claim is wrong
for filenames containing more than one dot. -/
theorem stem_path_counterexample :
    trackFolderName "song.v2.mp3" = "song" ∧
    basenameWithoutExtension "song.v2.mp3" = "song.v2" ∧
    stemPath "separated" "demucs" "song.v2.mp3" "drums" =
      "separated/demucs/song/drums.wav" ∧
    stemPath "separated" "demucs" "song.v2.mp3" "drums" ≠
      "separated/demucs/" ++ basenameWithoutExtension "song.v2.mp3" ++
        "/drums.wav" := by
  refine ⟨by decide, by decide, by decide, by decide⟩

/-- C7 amended: when inference yields 4 stems, exactly 4 files are written,
always in the order drums, bass, other, vocals, at
`<out>/<model>/<part of the track filename before the first dot>/<stem>.wav`,
and the directory each stem lands in is among those the run creates. -/
theorem stem_write_amended (outDir modelName trackName : String)
    (sources : List (List (List ℚ))) (h : sources.length = 4) :
    (writeStems outDir modelName trackName sources).map Prod.fst =
      [stemPath outDir modelName trackName "drums",
       stemPath outDir modelName trackName "bass",
       stemPath outDir modelName trackName "other",
       stemPath outDir modelName trackName "vocals"] ∧
    (writeStems outDir modelName trackName sources).length = 4 ∧
    (∀ stem : String,
      stemPath outDir modelName trackName stem =
        (outDir ++ "/" ++ modelName ++ "/" ++ trackFolderName trackName) ++
          "/" ++ stem ++ ".wav") ∧
    (outDir ++ "/" ++ modelName ++ "/" ++ trackFolderName trackName) ∈
      createdDirs outDir modelName trackName := by
  rcases sources with _ | ⟨a, _ | ⟨b, _ | ⟨c, _ | ⟨d, _ | ⟨e, t⟩⟩⟩⟩⟩ <;>
    simp_all [writeStems, source_names, stemPath, createdDirs]

theorem stem_write_amended_witness :
    (writeStems "separated" "demucs" "track.mp3"
        [[[0]], [[1]], [[2]], [[3]]]).map Prod.fst =
      [stemPath "separated" "demucs" "track.mp3" "drums",
       stemPath "separated" "demucs" "track.mp3" "bass",
       stemPath "separated" "demucs" "track.mp3" "other",
       stemPath "separated" "demucs" "track.mp3" "vocals"] :=
  (stem_write_amended "separated" "demucs" "track.mp3"
    [[[0]], [[1]], [[2]], [[3]]] (by simp)).1

end Demucs
